import Mathlib

/-!
Shallow embedding of the Secret Network reminder contract
(src/tutorial1/code/src: state.rs, msg.rs, contract.rs).

Modelling conventions:
  * Bytes are lists of naturals; machine integers are Nat/Int with explicit
    truncation modulo two to the width where overflow matters.
  * The opaque key-value store of the host is an association list with
    get/set, mirroring cosmwasm Storage.
  * Canonical addresses are the raw identity bytes; the host human-to-
    canonical address resolution (deps.api.canonical_address) is out of
    scope per the spec and is modelled as the identity on those bytes.
  * Rust panics are a distinct failure outcome (CError.panic) so that
    crashing is distinguishable from returning a structured StdError.
  * The file viewing_key.rs of this repository is not under src/; its
    members (ViewingKey.new, to_hashed, check_viewing_key, sha_256 from
    secret_toolkit) are modelled from the spec, with an idealized
    collision-free hash; see their doc comments.
-/

set_option autoImplicit false

/-- A key-value store: association list of byte-string keys to byte-string
values, mirroring the cosmwasm Storage trait (get and set). -/
abbrev Store := List (List Nat × List Nat)

/-- Storage get: returns the value stored at the key, if any. -/
def Store.get : Store → List Nat → Option (List Nat)
  | [], _ => none
  | (k2, v) :: rest, k => if k2 = k then some v else Store.get rest k

/-- Storage set: unconditionally overwrites the value at the key. -/
def Store.set : Store → List Nat → List Nat → Store
  | [], k, v => [(k, v)]
  | (k2, v2) :: rest, k, v =>
      if k2 = k then (k, v) :: rest else (k2, v2) :: Store.set rest k v

theorem Store.get_set_self (s : Store) (k v : List Nat) :
    Store.get (Store.set s k v) k = some v := by
  induction s with
  | nil => simp [Store.set, Store.get]
  | cons hd tl ih =>
      obtain ⟨k2, v2⟩ := hd
      by_cases h : k2 = k
      · simp [Store.set, h, Store.get]
      · simp [Store.set, h, Store.get, ih]

theorem Store.get_set_ne (s : Store) (k k2 v : List Nat) (h : k ≠ k2) :
    Store.get (Store.set s k v) k2 = Store.get s k2 := by
  induction s with
  | nil => simp [Store.set, Store.get, h]
  | cons hd tl ih =>
      obtain ⟨k3, v3⟩ := hd
      by_cases h3 : k3 = k
      · subst h3
        simp [Store.set, Store.get, h]
      · simp [Store.set, h3, Store.get, ih]

/-- The cosmwasm error type, restricted to the variants this contract
produces (generic_err, not_found, parse_err, unauthorized). -/
inductive StdError where
  | genericErr (msg : String)
  | notFound (kind : String)
  | parseErr (target : String) (msg : String)
  | unauthorized
deriving DecidableEq

/-- Outcome of a contract entry point: either a structured StdError
(returned to the caller) or a Rust panic (a crash), kept distinct. -/
inductive CError where
  | std (e : StdError)
  | panic (msg : String)
deriving DecidableEq

/-- State struct of state.rs: max_size is u16, reminder_count is u64,
prng_seed is a byte vector. -/
structure State where
  max_size : Nat
  reminder_count : Nat
  prng_seed : List Nat
deriving DecidableEq

/-- Reminder struct of state.rs: content bytes plus a u64 timestamp. -/
structure Reminder where
  content : List Nat
  timestamp : Nat
deriving DecidableEq

/-- Little-endian 2-byte encoding of a u16, as bincode2 serializes u16. -/
def u16le (n : Nat) : List Nat := [n % 256, n / 256 % 256]

/-- Little-endian 8-byte encoding of a u64, as bincode2 serializes u64. -/
def u64le (n : Nat) : List Nat :=
  [n % 256, n / 256 % 256, n / 65536 % 256, n / 16777216 % 256,
   n / 4294967296 % 256, n / 1099511627776 % 256,
   n / 281474976710656 % 256, n / 72057594037927936 % 256]

/-- Parse a little-endian u16 from the front of a byte list. -/
def readU16le : List Nat → Option (Nat × List Nat)
  | b0 :: b1 :: rest => some (b0 + 256 * b1, rest)
  | _ => none

/-- Parse a little-endian u64 from the front of a byte list. -/
def readU64le : List Nat → Option (Nat × List Nat)
  | b0 :: b1 :: b2 :: b3 :: b4 :: b5 :: b6 :: b7 :: rest =>
      some (b0 + 256 * (b1 + 256 * (b2 + 256 * (b3 + 256 * (b4 + 256 *
        (b5 + 256 * (b6 + 256 * b7)))))), rest)
  | _ => none

/-- Bincode2 encoding of a byte vector: u64 length prefix then the bytes. -/
def encodeVec (b : List Nat) : List Nat := u64le b.length ++ b

/-- Parse a bincode2 byte vector (length-prefixed) from the front. -/
def readVec (l : List Nat) : Option (List Nat × List Nat) :=
  match readU64le l with
  | none => none
  | some (n, rest) =>
      if n ≤ rest.length then some (rest.take n, rest.drop n) else none

/-- Bincode2 serialization of State: fields in declaration order, fixed
widths, no padding (as Bincode2::serialize in state.rs save). -/
def State.serialize (s : State) : List Nat :=
  u16le s.max_size ++ u64le s.reminder_count ++ encodeVec s.prng_seed

/-- Bincode2 deserialization of State (Bincode2::deserialize in load). -/
def deserializeState (l : List Nat) : Option State :=
  match readU16le l with
  | none => none
  | some (m, r1) =>
      match readU64le r1 with
      | none => none
      | some (c, r2) =>
          match readVec r2 with
          | none => none
          | some (s, _) => some ⟨m, c, s⟩

/-- Bincode2 serialization of Reminder: content vector then u64 timestamp. -/
def Reminder.serialize (r : Reminder) : List Nat :=
  encodeVec r.content ++ u64le r.timestamp

/-- Bincode2 deserialization of Reminder. -/
def deserializeReminder (l : List Nat) : Option Reminder :=
  match readVec l with
  | none => none
  | some (c, r1) =>
      match readU64le r1 with
      | none => none
      | some (t, _) => some ⟨c, t⟩

theorem readU16le_u16le (n : Nat) (rest : List Nat) (h : n < 2 ^ 16) :
    readU16le (u16le n ++ rest) = some (n, rest) := by
  have h2 : n < 65536 := by omega
  simp only [u16le, List.cons_append, List.nil_append, readU16le,
    Option.some.injEq, Prod.mk.injEq]
  exact ⟨by omega, trivial⟩

theorem readU64le_u64le (n : Nat) (rest : List Nat) (h : n < 2 ^ 64) :
    readU64le (u64le n ++ rest) = some (n, rest) := by
  have h2 : n < 18446744073709551616 := by omega
  simp only [u64le, List.cons_append, List.nil_append, readU64le,
    Option.some.injEq, Prod.mk.injEq]
  exact ⟨by omega, trivial⟩

theorem readVec_encodeVec (b rest : List Nat) (h : b.length < 2 ^ 64) :
    readVec (encodeVec b ++ rest) = some (b, rest) := by
  simp only [encodeVec, List.append_assoc, readVec,
    readU64le_u64le b.length (b ++ rest) h]
  rw [if_pos (by simp)]
  rw [List.take_left, List.drop_left]

theorem deserializeState_serialize (s : State) (hm : s.max_size < 2 ^ 16)
    (hc : s.reminder_count < 2 ^ 64) (hp : s.prng_seed.length < 2 ^ 64) :
    deserializeState (State.serialize s) = some s := by
  simp only [State.serialize, deserializeState, List.append_assoc,
    readU16le_u16le s.max_size _ hm, readU64le_u64le s.reminder_count _ hc]
  have hv := readVec_encodeVec s.prng_seed [] hp
  rw [List.append_nil] at hv
  rw [hv]

theorem deserializeReminder_serialize (r : Reminder)
    (hc : r.content.length < 2 ^ 64) (ht : r.timestamp < 2 ^ 64) :
    deserializeReminder (Reminder.serialize r) = some r := by
  simp only [Reminder.serialize, deserializeReminder,
    readVec_encodeVec r.content _ hc]
  have hu := readU64le_u64le r.timestamp [] ht
  rw [List.append_nil] at hu
  rw [hu]

/-- Status string of try_record when the payload exceeds max_size. -/
def MSG_TOO_LONG : String := "Message is too long. Reminder not recorded."

/-- Status string of try_record on success. -/
def MSG_RECORDED : String := "Reminder recorded!"

/-- Status string of try_read and query_read when a reminder exists. -/
def MSG_FOUND : String := "Reminder found."

/-- Status string of try_read and query_read when no reminder exists. -/
def MSG_NOT_FOUND : String := "Reminder not found."

/-- Error message of init for an out-of-range max_size. -/
def MSG_INVALID_CONFIG : String := "Invalid max_size. Must be in the range of 1..65535."

/-- Panic message of the unreachable authenticated-query branches. -/
def PANIC_AUTH : String := "This query type does not require authentication"

/-- Panic message of Option::unwrap on a None value, reached when the
ok().unwrap() pattern in try_read and query_read hits a decode error. -/
def PANIC_UNWRAP : String := "called Option::unwrap on a None value"

/-- Fixed storage key of the Config singleton: the bytes of "config". -/
def CONFIG_KEY : List Nat := [99, 111, 110, 102, 105, 103]

/-- Namespace tag of the viewing-key table: the bytes of "viewingkey". -/
def PREFIX_VIEWING_KEY : List Nat := [118, 105, 101, 119, 105, 110, 103, 107, 101, 121]

/-- Length-prefixed namespace encoding used by cosmwasm PrefixedStorage:
two big-endian length bytes followed by the namespace bytes. -/
def toLengthPrefixed (ns : List Nat) : List Nat :=
  [ns.length / 256 % 256, ns.length % 256] ++ ns

/-- Full storage key of the viewing-key record of an identity: the
PrefixedStorage namespace for "viewingkey" followed by the identity bytes. -/
def vkStoreKey (owner : List Nat) : List Nat :=
  toLengthPrefixed PREFIX_VIEWING_KEY ++ owner

/-- Modelled from the spec: sha_256 of secret_toolkit (viewing_key.rs is not
under src/). The one-way cryptographic hash is idealized as a collision-free
(injective) byte function; its fixed 32-byte output size is abstracted. -/
def sha_256 (b : List Nat) : List Nat := b.length :: b

theorem sha_256_inj (a b : List Nat) (h : sha_256 a = sha_256 b) : a = b := by
  simp only [sha_256, List.cons.injEq] at h
  exact h.2

/-- Output size in bytes of the real hash, the size of a stored viewing-key
hash and of the all-zero dummy buffer (VIEWING_KEY_SIZE in viewing_key.rs). -/
def VIEWING_KEY_SIZE : Nat := 32

/-- Character of the standard base64 alphabet at an index below 64,
as an ASCII code (A-Z, a-z, 0-9, plus, slash). -/
def b64Char (n : Nat) : Nat :=
  if n < 26 then 65 + n
  else if n < 52 then 97 + (n - 26)
  else if n < 62 then 48 + (n - 52)
  else if n = 62 then 43 else 47

/-- Standard base64 encoding (the base64::encode call in init), producing
the ASCII codes of the encoded string, with = (61) padding. -/
def base64Encode : List Nat → List Nat
  | [] => []
  | [a] => [b64Char (a / 4), b64Char (a % 4 * 16), 61, 61]
  | [a, b] => [b64Char (a / 4), b64Char (a % 4 * 16 + b / 16), b64Char (b % 16 * 4), 61]
  | a :: b :: c :: rest =>
      [b64Char (a / 4), b64Char (a % 4 * 16 + b / 16),
       b64Char (b % 16 * 4 + c / 64), b64Char (c % 64)] ++ base64Encode rest

theorem base64Encode_length_le (l : List Nat) :
    (base64Encode l).length ≤ 2 * l.length + 4 := by
  induction l using base64Encode.induct with
  | case1 => simp [base64Encode]
  | case2 a => simp [base64Encode]
  | case3 a b => simp [base64Encode]
  | case4 a b c rest ih =>
      simp only [base64Encode, List.length_append, List.length_cons]
      simp only [List.length_cons, List.length_nil] at ih ⊢
      omega

/-- Execution environment of a call: block time and height plus the
canonical identity bytes of the message sender. -/
structure Env where
  blockTime : Nat
  blockHeight : Nat
  sender : List Nat
deriving DecidableEq

/-- Modelled from the spec: ViewingKey::new of viewing_key.rs (not under
src/). The token is derived deterministically from the contract seed, the
environment randomness (block height, time, sender) and the caller-supplied
entropy, through the idealized pseudo-random hash. -/
def ViewingKey.new (env : Env) (seed : List Nat) (entropy : List Nat) : List Nat :=
  sha_256 (seed ++ u64le env.blockHeight ++ u64le env.blockTime ++ env.sender ++ entropy)

/-- Modelled from the spec: ViewingKey::to_hashed of viewing_key.rs (not
under src/): the one-way hash of the token, the only form persisted. -/
def toHashed (tok : List Nat) : List Nat := sha_256 tok

/-- Modelled from the spec: ViewingKey::check_viewing_key of viewing_key.rs
(not under src/): recompute the hash of the presented token and compare it
with the stored hash. The comparison is constant-time in the source
(ct_eq); execution time is not modelled, only the compared buffers. -/
def check_viewing_key (tok : List Nat) (hashed : List Nat) : Bool :=
  sha_256 tok == hashed

theorem check_viewing_key_eq_true (tok hashed : List Nat) :
    check_viewing_key tok hashed = true ↔ sha_256 tok = hashed := by
  simp [check_viewing_key]

/-- Type name reported by the not_found and parse errors for State. -/
def STATE_TYPE : String := "tutorial1::state::State"

/-- Type name reported by the not_found and parse errors for Reminder. -/
def REMINDER_TYPE : String := "tutorial1::state::Reminder"

/-- Message carried by a bincode2 deserialization failure. -/
def PARSE_MSG : String := "deserialize failure"

/-- Load of state.rs: storage get, not_found error when absent, parse_err
(DecodeError) when present but not deserializable, monomorphized to State. -/
def loadState (store : Store) (key : List Nat) : Except CError State :=
  match Store.get store key with
  | none => .error (.std (.notFound STATE_TYPE))
  | some bv =>
      match deserializeState bv with
      | some s => .ok s
      | none => .error (.std (.parseErr STATE_TYPE PARSE_MSG))

/-- May_load of state.rs monomorphized to Reminder: absence is Ok(None),
presence with a decode failure is a parse_err (DecodeError). -/
def mayLoadReminder (store : Store) (key : List Nat) :
    Except CError (Option Reminder) :=
  match Store.get store key with
  | none => .ok none
  | some bv =>
      match deserializeReminder bv with
      | some r => .ok (some r)
      | none => .error (.std (.parseErr REMINDER_TYPE PARSE_MSG))

/-- Write_viewing_key of state.rs: set the hashed token at the identity
bytes inside the length-prefixed "viewingkey" namespace. -/
def write_viewing_key (store : Store) (owner : List Nat) (tok : List Nat) : Store :=
  Store.set store (vkStoreKey owner) (toHashed tok)

/-- Read_viewing_key of state.rs: get the stored hash from the
"viewingkey" namespace, absence as None. -/
def read_viewing_key (store : Store) (owner : List Nat) : Option (List Nat) :=
  Store.get store (vkStoreKey owner)

/-- InitMsg of msg.rs: an i32 max_size and the caller-supplied seed
(the bytes of the prng_seed string). -/
structure InitMsg where
  max_size : Int
  prng_seed : List Nat
deriving DecidableEq

/-- QueryMsg of msg.rs: unauthenticated Stats, or an authenticated Read
carrying a target address and a presented viewing-key token. -/
inductive QueryMsg where
  | Stats
  | Read (address : List Nat) (key : List Nat)
deriving DecidableEq

/-- HandleAnswer of msg.rs, with reminder contents kept as raw bytes
wrapped by the partial utf8 view used in the responses. -/
inductive HandleAnswer where
  | Record (status : String)
  | Read (status : String) (reminder : Option (List Nat)) (timestamp : Option Nat)
  | GenerateViewingKey (key : List Nat)
deriving DecidableEq

/-- QueryAnswer of msg.rs. -/
inductive QueryAnswer where
  | Stats (reminder_count : Nat)
  | Read (status : String) (reminder : Option (List Nat)) (timestamp : Option Nat)
deriving DecidableEq

/-- True when a byte is a UTF-8 continuation byte (0x80 to 0xBF). -/
def utf8Cont (b : Nat) : Bool := 128 ≤ b && b ≤ 191

/-- Standard UTF-8 validity of a byte sequence, as checked by the Rust
String::from_utf8 (rejecting overlongs, surrogates and values beyond
U+10FFFF). -/
def validUtf8 : List Nat → Bool
  | [] => true
  | b :: rest =>
      if b ≤ 127 then validUtf8 rest
      else if 194 ≤ b && b ≤ 223 then
        match rest with
        | c1 :: r => utf8Cont c1 && validUtf8 r
        | [] => false
      else if b = 224 then
        match rest with
        | c1 :: c2 :: r => (160 ≤ c1 && c1 ≤ 191) && utf8Cont c2 && validUtf8 r
        | _ => false
      else if (225 ≤ b && b ≤ 236) || b = 238 || b = 239 then
        match rest with
        | c1 :: c2 :: r => utf8Cont c1 && utf8Cont c2 && validUtf8 r
        | _ => false
      else if b = 237 then
        match rest with
        | c1 :: c2 :: r => (128 ≤ c1 && c1 ≤ 159) && utf8Cont c2 && validUtf8 r
        | _ => false
      else if b = 240 then
        match rest with
        | c1 :: c2 :: c3 :: r =>
            (144 ≤ c1 && c1 ≤ 191) && utf8Cont c2 && utf8Cont c3 && validUtf8 r
        | _ => false
      else if 241 ≤ b && b ≤ 243 then
        match rest with
        | c1 :: c2 :: c3 :: r =>
            utf8Cont c1 && utf8Cont c2 && utf8Cont c3 && validUtf8 r
        | _ => false
      else if b = 244 then
        match rest with
        | c1 :: c2 :: c3 :: r =>
            (128 ≤ c1 && c1 ≤ 143) && utf8Cont c2 && utf8Cont c3 && validUtf8 r
        | _ => false
      else false

/-- String::from_utf8(bytes).ok() in the read paths: the content bytes when
they are valid UTF-8, None otherwise (the bytes themselves stand for the
decoded string). -/
def fromUtf8Ok (b : List Nat) : Option (List Nat) :=
  if validUtf8 b then some b else none

/-- Valid_max_size of contract.rs: None below 1, otherwise the u16
conversion, which fails above 65535. -/
def valid_max_size (val : Int) : Option Nat :=
  if val < 1 then none
  else if val ≤ 65535 then some val.toNat else none

/-- Init of contract.rs: validate max_size, then persist the Config with a
zero reminder_count and the hash of the base64 encoding of the seed. -/
def init (store : Store) (msg : InitMsg) : Except CError (Store × Unit) :=
  match valid_max_size msg.max_size with
  | none => .error (.std (.genericErr MSG_INVALID_CONFIG))
  | some ms =>
      let config : State := ⟨ms, 0, sha_256 (base64Encode msg.prng_seed)⟩
      .ok (Store.set store CONFIG_KEY (State.serialize config), ())

/-- Try_record of contract.rs: load Config; if the payload exceeds
max_size, only report the too-long status; otherwise save the Reminder at
the canonical bytes of the sender, increment reminder_count (u64 wrap) and save
the Config back. -/
def try_record (store : Store) (env : Env) (reminder : List Nat) :
    Except CError (Store × HandleAnswer) :=
  match loadState store CONFIG_KEY with
  | .error e => .error e
  | .ok config =>
      if config.max_size < reminder.length then
        .ok (store, .Record MSG_TOO_LONG)
      else
        let stored : Reminder := ⟨reminder, env.blockTime⟩
        let store1 := Store.set store env.sender (Reminder.serialize stored)
        let config2 : State :=
          ⟨config.max_size, (config.reminder_count + 1) % 2 ^ 64, config.prng_seed⟩
        let store2 := Store.set store1 CONFIG_KEY (State.serialize config2)
        .ok (store2, .Record MSG_RECORDED)

/-- Try_read of contract.rs: may_load the Reminder of the sender through the
ok().unwrap() pattern, which panics on a decode error, then report
found or not found. -/
def try_read (store : Store) (env : Env) : Except CError (Store × HandleAnswer) :=
  match mayLoadReminder store env.sender with
  | .error _ => .error (.panic PANIC_UNWRAP)
  | .ok (some r) =>
      .ok (store, .Read MSG_FOUND (fromUtf8Ok r.content) (some r.timestamp))
  | .ok none => .ok (store, .Read MSG_NOT_FOUND none none)

/-- Try_generate_viewing_key of contract.rs: load the Config, derive the
token from the stored prng_seed and the entropy, persist its hash under the
viewing-key slot of the sender and return the token. -/
def try_generate_viewing_key (store : Store) (env : Env) (entropy : List Nat) :
    Except CError (Store × HandleAnswer) :=
  match loadState store CONFIG_KEY with
  | .error e => .error e
  | .ok config =>
      let key := ViewingKey.new env config.prng_seed entropy
      let store1 := write_viewing_key store env.sender key
      .ok (store1, .GenerateViewingKey key)

/-- Get_validation_params of msg.rs: the candidate address list and the
presented key for Read, a panic for every other variant. -/
def get_validation_params (msg : QueryMsg) :
    Except CError (List (List Nat) × List Nat) :=
  match msg with
  | .Read address key => .ok ([address], key)
  | _ => .error (.panic PANIC_AUTH)

/-- Query_read of contract.rs: may_load the Reminder of the target through the
same panicking ok().unwrap() pattern and report found or not found. -/
def query_read (store : Store) (address : List Nat) : Except CError QueryAnswer :=
  match mayLoadReminder store address with
  | .error _ => .error (.panic PANIC_UNWRAP)
  | .ok (some r) =>
      .ok (.Read MSG_FOUND (fromUtf8Ok r.content) (some r.timestamp))
  | .ok none => .ok (.Read MSG_NOT_FOUND none none)

/-- Dispatch on a successful credential check inside authenticated_queries:
the Read variant goes to query_read, every other variant is the panic
branch labelled by PANIC_AUTH. -/
def authSuccess (store : Store) (msg : QueryMsg) : Except CError QueryAnswer :=
  match msg with
  | .Read address2 _ => query_read store address2
  | _ => .error (.panic PANIC_AUTH)

/-- Candidate loop of authenticated_queries in contract.rs. The second
component instruments the loop with the list of stored-hash buffers the
presented key was checked against, in order: the all-zero dummy buffer when
an identity has no stored hash, the stored hash otherwise. -/
def authLoop (store : Store) (key : List Nat) (msg : QueryMsg) :
    List (List Nat) → Except CError QueryAnswer × List (List Nat)
  | [] => (.error (.std .unauthorized), [])
  | address :: rest =>
      match read_viewing_key store address with
      | none =>
          let rec1 := authLoop store key msg rest
          (rec1.1, List.replicate VIEWING_KEY_SIZE 0 :: rec1.2)
      | some expected =>
          if check_viewing_key key expected then
            (authSuccess store msg, [expected])
          else
            let rec1 := authLoop store key msg rest
            (rec1.1, expected :: rec1.2)

/-- Authenticated_queries of contract.rs: extract the candidate addresses
and presented key, then run the candidate loop; exhaustion of the
candidates is the unauthorized error. -/
def authenticated_queries (store : Store) (msg : QueryMsg) :
    Except CError QueryAnswer × List (List Nat) :=
  match get_validation_params msg with
  | .error e => (.error e, [])
  | .ok (addresses, key) => authLoop store key msg addresses

/-- Query_stats of contract.rs: load the Config and report reminder_count. -/
def query_stats (store : Store) : Except CError QueryAnswer :=
  match loadState store CONFIG_KEY with
  | .error e => .error e
  | .ok config => .ok (.Stats config.reminder_count)

/-- Query dispatch of contract.rs: Stats directly, every other variant
through authenticated_queries. -/
def query (store : Store) (msg : QueryMsg) : Except CError QueryAnswer :=
  match msg with
  | .Stats => query_stats store
  | m => (authenticated_queries store m).1

/-- Sequence of Record calls: each call is an environment (sender, block
time) plus a payload; the resulting stores are threaded through. -/
def recordMany (store : Store) : List (Env × List Nat) → Except CError Store
  | [] => .ok store
  | (env, p) :: rest =>
      match try_record store env p with
      | .error e => .error e
      | .ok (store2, _) => recordMany store2 rest

/-- Number of calls of a Record sequence whose payload fits within the
given max_size, that is the successful ones. -/
def countSucc (m : Nat) (calls : List (Env × List Nat)) : Nat :=
  (calls.filter (fun c => decide (c.2.length ≤ m))).length

/-- Decidable equality for Except outcomes, so that concrete runs of the
embedded operations can be checked by evaluation. -/
def exceptDecEq {ε α : Type} [DecidableEq ε] [DecidableEq α] :
    (a b : Except ε α) → Decidable (a = b)
  | .ok a, .ok b =>
      match decEq a b with
      | isTrue h => isTrue (by rw [h])
      | isFalse h => isFalse (fun hc => h (by injection hc))
  | .error a, .error b =>
      match decEq a b with
      | isTrue h => isTrue (by rw [h])
      | isFalse h => isFalse (fun hc => h (by injection hc))
  | .ok _, .error _ => isFalse (fun hc => Except.noConfusion hc)
  | .error _, .ok _ => isFalse (fun hc => Except.noConfusion hc)

instance {ε α : Type} [DecidableEq ε] [DecidableEq α] :
    DecidableEq (Except ε α) := exceptDecEq

theorem sha_256_length (b : List Nat) : (sha_256 b).length = b.length + 1 := by
  simp [sha_256]

theorem vkStoreKey_length (owner : List Nat) :
    (vkStoreKey owner).length = 12 + owner.length := by
  simp [vkStoreKey, toLengthPrefixed, PREFIX_VIEWING_KEY]
  omega

/-- C9: deserializing the bytes produced by serializing a valid State
(Config) or Reminder value yields exactly that value; validity means every
field fits its declared machine-integer width. -/
theorem codec_roundtrip (s : State) (r : Reminder)
    (hm : s.max_size < 2 ^ 16) (hc : s.reminder_count < 2 ^ 64)
    (hp : s.prng_seed.length < 2 ^ 64)
    (hrc : r.content.length < 2 ^ 64) (ht : r.timestamp < 2 ^ 64) :
    deserializeState (State.serialize s) = some s ∧
    deserializeReminder (Reminder.serialize r) = some r :=
  ⟨deserializeState_serialize s hm hc hp, deserializeReminder_serialize r hrc ht⟩

/-- Witness for C9 at a concrete Config and Reminder. -/
theorem codec_roundtrip_witness :
    (10 : Nat) < 2 ^ 16 ∧
    deserializeState (State.serialize ⟨10, 3, [1, 2]⟩) = some ⟨10, 3, [1, 2]⟩ ∧
    deserializeReminder (Reminder.serialize ⟨[104, 105], 42⟩) =
      some ⟨[104, 105], 42⟩ := by
  refine ⟨by decide, ?_, ?_⟩
  · exact (codec_roundtrip ⟨10, 3, [1, 2]⟩ ⟨[104, 105], 42⟩ (by decide)
      (by decide) (by decide) (by decide) (by decide)).1
  · exact (codec_roundtrip ⟨10, 3, [1, 2]⟩ ⟨[104, 105], 42⟩ (by decide)
      (by decide) (by decide) (by decide) (by decide)).2

theorem seed_hash_length_lt (seed : List Nat) (hseed : seed.length ≤ 2 ^ 60) :
    (sha_256 (base64Encode seed)).length < 2 ^ 64 := by
  have hb := base64Encode_length_le seed
  rw [sha_256_length]
  omega

theorem loadState_set_serialize (store : Store) (s : State)
    (hm : s.max_size < 2 ^ 16) (hc : s.reminder_count < 2 ^ 64)
    (hp : s.prng_seed.length < 2 ^ 64) :
    loadState (Store.set store CONFIG_KEY (State.serialize s)) CONFIG_KEY = .ok s := by
  simp [loadState, Store.get_set_self, deserializeState_serialize s hm hc hp]

/-- C5: init fails with the InvalidConfig generic error (persisting
nothing, since the error return precedes the only save) for every integer
max_size outside 1..65535, and for every max_size inside the range it
persists a Config whose max_size equals the argument and whose
reminder_count is zero. -/
theorem init_validates_max_size (store : Store) (msg : InitMsg)
    (hseed : msg.prng_seed.length ≤ 2 ^ 60) :
    (msg.max_size < 1 ∨ 65535 < msg.max_size →
      init store msg = .error (.std (.genericErr MSG_INVALID_CONFIG))) ∧
    (1 ≤ msg.max_size → msg.max_size ≤ 65535 →
      ∃ store2, init store msg = .ok (store2, ()) ∧
        loadState store2 CONFIG_KEY =
          .ok ⟨msg.max_size.toNat, 0, sha_256 (base64Encode msg.prng_seed)⟩ ∧
        (msg.max_size.toNat : Int) = msg.max_size) := by
  constructor
  · intro h
    have hv : valid_max_size msg.max_size = none := by
      unfold valid_max_size
      rcases h with h | h
      · rw [if_pos h]
      · rw [if_neg (by omega), if_neg (by omega)]
    simp [init, hv]
  · intro h1 h2
    have hv : valid_max_size msg.max_size = some msg.max_size.toNat := by
      unfold valid_max_size
      rw [if_neg (by omega), if_pos (by omega)]
    refine ⟨Store.set store CONFIG_KEY
      (State.serialize ⟨msg.max_size.toNat, 0, sha_256 (base64Encode msg.prng_seed)⟩),
      ?_, ?_, by omega⟩
    · simp [init, hv]
    · exact loadState_set_serialize store _ (by simp; omega) (by norm_num)
        (seed_hash_length_lt msg.prng_seed hseed)

/-- Witness for C5 at max_size 0 (rejected), 70000 (rejected) and 10
(accepted). -/
theorem init_validates_max_size_witness :
    ([2, 3] : List Nat).length ≤ 2 ^ 60 ∧
    init [] ⟨0, [2, 3]⟩ = .error (.std (.genericErr MSG_INVALID_CONFIG)) ∧
    init [] ⟨70000, [2, 3]⟩ = .error (.std (.genericErr MSG_INVALID_CONFIG)) ∧
    (∃ store2, init [] ⟨10, [2, 3]⟩ = .ok (store2, ()) ∧
      loadState store2 CONFIG_KEY =
        .ok ⟨(10 : Int).toNat, 0, sha_256 (base64Encode [2, 3])⟩ ∧
      ((10 : Int).toNat : Int) = 10) := by
  refine ⟨by decide, ?_, ?_, ?_⟩
  · exact (init_validates_max_size [] ⟨0, [2, 3]⟩ (by decide)).1 (by decide)
  · exact (init_validates_max_size [] ⟨70000, [2, 3]⟩ (by decide)).1 (by decide)
  · exact (init_validates_max_size [] ⟨10, [2, 3]⟩ (by decide)).2 (by decide) (by decide)

/-- C3: try_record persists a Reminder with the payload under the caller
identity exactly when the payload fits within max_size; an over-long
payload yields the too-long status as a success and returns the store
entirely unchanged, so neither the prior Reminder nor the Config moves. -/
theorem record_persists_iff_within_max (store : Store) (env : Env)
    (p : List Nat) (config : State)
    (hload : loadState store CONFIG_KEY = .ok config)
    (hmax : config.max_size < 2 ^ 16)
    (hseedlen : config.prng_seed.length < 2 ^ 64)
    (htime : env.blockTime < 2 ^ 64)
    (hsender : env.sender ≠ CONFIG_KEY) :
    (p.length ≤ config.max_size →
      ∃ store2, try_record store env p = .ok (store2, .Record MSG_RECORDED) ∧
        mayLoadReminder store2 env.sender = .ok (some ⟨p, env.blockTime⟩) ∧
        loadState store2 CONFIG_KEY =
          .ok ⟨config.max_size, (config.reminder_count + 1) % 2 ^ 64,
               config.prng_seed⟩) ∧
    (config.max_size < p.length →
      try_record store env p = .ok (store, .Record MSG_TOO_LONG)) := by
  constructor
  · intro hp
    refine ⟨Store.set (Store.set store env.sender
        (Reminder.serialize ⟨p, env.blockTime⟩)) CONFIG_KEY
        (State.serialize ⟨config.max_size, (config.reminder_count + 1) % 2 ^ 64,
          config.prng_seed⟩), ?_, ?_, ?_⟩
    · simp [try_record, hload, Nat.not_lt.mpr hp]
    · have hcfgne : CONFIG_KEY ≠ env.sender := fun h => hsender h.symm
      simp only [mayLoadReminder, Store.get_set_ne _ _ _ _ hcfgne,
        Store.get_set_self,
        deserializeReminder_serialize ⟨p, env.blockTime⟩ (by simp; omega) htime]
    · exact loadState_set_serialize _ _ hmax
        (Nat.mod_lt _ (by norm_num)) hseedlen
  · intro hp
    simp [try_record, hload, hp]

/-- Witness for C3: max_size 5, a fitting payload and an over-long one. -/
theorem record_persists_iff_within_max_witness :
    loadState (Store.set [] CONFIG_KEY (State.serialize ⟨5, 0, [9]⟩)) CONFIG_KEY =
      .ok ⟨5, 0, [9]⟩ ∧
    (∃ store2,
      try_record (Store.set [] CONFIG_KEY (State.serialize ⟨5, 0, [9]⟩))
        ⟨77, 1, [1, 2]⟩ [104, 105] = .ok (store2, .Record MSG_RECORDED) ∧
      mayLoadReminder store2 [1, 2] = .ok (some ⟨[104, 105], 77⟩) ∧
      loadState store2 CONFIG_KEY = .ok ⟨5, (0 + 1) % 2 ^ 64, [9]⟩) ∧
    try_record (Store.set [] CONFIG_KEY (State.serialize ⟨5, 0, [9]⟩))
      ⟨77, 1, [1, 2]⟩ [1, 2, 3, 4, 5, 6] =
      .ok (Store.set [] CONFIG_KEY (State.serialize ⟨5, 0, [9]⟩),
           .Record MSG_TOO_LONG) := by
  refine ⟨by decide, ?_, ?_⟩
  · exact (record_persists_iff_within_max _ ⟨77, 1, [1, 2]⟩ [104, 105] ⟨5, 0, [9]⟩
      (by decide) (by decide) (by decide) (by decide) (by decide)).1 (by decide)
  · exact (record_persists_iff_within_max _ ⟨77, 1, [1, 2]⟩ [1, 2, 3, 4, 5, 6]
      ⟨5, 0, [9]⟩ (by decide) (by decide) (by decide) (by decide) (by decide)).2
      (by decide)

/-- C7 evaluation: with the byte string 0 stored under identity 1 (which
does not decode to a Reminder), the self-read and the authenticated read
both terminate in the Option::unwrap panic produced by the ok().unwrap()
pattern, not in a structured DecodeError result. -/
theorem read_panics_on_corrupt_bytes :
    deserializeReminder [0] = none ∧
    try_read [([1], [0])] ⟨0, 0, [1]⟩ = .error (.panic PANIC_UNWRAP) ∧
    query [([1], [0]), (vkStoreKey [1], toHashed [5])] (.Read [1] [5]) =
      .error (.panic PANIC_UNWRAP) := by
  refine ⟨by decide, by decide, ?_⟩
  decide

theorem loadState_no_panic (store : Store) (key : List Nat) (m : String) :
    loadState store key ≠ .error (.panic m) := by
  unfold loadState
  rcases hg : Store.get store key with _ | bv
  · simp
  · rcases hd : deserializeState bv with _ | s <;> simp [hd]

theorem query_read_ne_auth_panic (store : Store) (a : List Nat) :
    query_read store a ≠ .error (.panic PANIC_AUTH) := by
  unfold query_read mayLoadReminder
  rcases hg : Store.get store a with _ | bv
  · simp
  · rcases hd : deserializeReminder bv with _ | r
    · simp [hd, PANIC_UNWRAP, PANIC_AUTH]
    · simp [hd]

theorem authLoop_ne_auth_panic (store : Store) (key a k2 : List Nat)
    (addrs : List (List Nat)) :
    (authLoop store key (.Read a k2) addrs).1 ≠ .error (.panic PANIC_AUTH) := by
  induction addrs with
  | nil => simp [authLoop]
  | cons addr rest ih =>
      rcases hv : read_viewing_key store addr with _ | expected
      · simpa [authLoop, hv] using ih
      · by_cases hc : check_viewing_key key expected = true
        · simpa [authLoop, hv, hc, authSuccess] using
            query_read_ne_auth_panic store a
        · simpa [authLoop, hv, hc] using ih

theorem query_stats_ne_auth_panic (store : Store) :
    query_stats store ≠ .error (.panic PANIC_AUTH) := by
  rcases hl : loadState store CONFIG_KEY with e | config
  · simp only [query_stats, hl]
    intro hq
    injection hq with he
    exact loadState_no_panic store CONFIG_KEY PANIC_AUTH (by rw [hl, he])
  · simp [query_stats, hl]

/-- C10: the query dispatch never reaches the panic branches labelled
"This query type does not require authentication": for every QueryMsg and
store, the result of query is never that panic, since the only variant
routed through authenticated_queries is Read, which both
get_validation_params and the post-authentication match handle. -/
theorem auth_panic_unreachable (store : Store) (msg : QueryMsg) :
    query store msg ≠ .error (.panic PANIC_AUTH) := by
  cases msg with
  | Stats => exact query_stats_ne_auth_panic store
  | Read a k =>
      simp only [query, authenticated_queries, get_validation_params]
      exact authLoop_ne_auth_panic store k a k [a]

theorem recordMany_count_from (m : Nat) (seed : List Nat)
    (hm : m < 2 ^ 16) (hs : seed.length < 2 ^ 64)
    (calls : List (Env × List Nat)) :
    ∀ (store : Store) (k : Nat),
      loadState store CONFIG_KEY = .ok ⟨m, k, seed⟩ →
      k + countSucc m calls < 2 ^ 64 →
      ∃ store2, recordMany store calls = .ok store2 ∧
        loadState store2 CONFIG_KEY = .ok ⟨m, k + countSucc m calls, seed⟩ := by
  induction calls with
  | nil =>
      intro store k hload hk
      exact ⟨store, rfl, by simpa [countSucc] using hload⟩
  | cons call rest ih =>
      obtain ⟨env, p⟩ := call
      intro store k hload hk
      by_cases hp : p.length ≤ m
      · have hcount : countSucc m ((env, p) :: rest) = countSucc m rest + 1 := by
          simp [countSucc, hp]
        have hk1 : k + 1 < 2 ^ 64 := by omega
        have hmod : (k + 1) % 2 ^ 64 = k + 1 := Nat.mod_eq_of_lt hk1
        have hrec : try_record store env p =
            .ok (Store.set (Store.set store env.sender
                  (Reminder.serialize ⟨p, env.blockTime⟩)) CONFIG_KEY
                  (State.serialize ⟨m, (k + 1) % 2 ^ 64, seed⟩),
                .Record MSG_RECORDED) := by
          simp [try_record, hload, Nat.not_lt.mpr hp]
        have hload2 : loadState (Store.set (Store.set store env.sender
            (Reminder.serialize ⟨p, env.blockTime⟩)) CONFIG_KEY
            (State.serialize ⟨m, (k + 1) % 2 ^ 64, seed⟩)) CONFIG_KEY =
            .ok ⟨m, k + 1, seed⟩ := by
          rw [hmod]
          exact loadState_set_serialize _ _ hm hk1 hs
        obtain ⟨store3, h1, h2⟩ := ih _ (k + 1) hload2 (by omega)
        refine ⟨store3, ?_, ?_⟩
        · simp only [recordMany, hrec]
          exact h1
        · rw [h2]
          have : k + 1 + countSucc m rest = k + countSucc m ((env, p) :: rest) := by
            omega
          rw [this]
      · have hcount : countSucc m ((env, p) :: rest) = countSucc m rest := by
          simp [countSucc, hp]
        have hrec : try_record store env p = .ok (store, .Record MSG_TOO_LONG) := by
          simp [try_record, hload, Nat.lt_of_not_le hp]
        obtain ⟨store3, h1, h2⟩ := ih store k hload (by omega)
        refine ⟨store3, ?_, ?_⟩
        · simp only [recordMany, hrec]
          exact h1
        · rw [h2, hcount]

/-- C4: from a freshly initialized Config (reminder_count zero), after any
sequence of Record calls of which exactly N fit within max_size (the
successful ones) interleaved with any number of too-long failed ones, the
persisted reminder_count equals N. -/
theorem reminder_count_eq_successes (store0 : Store) (m : Nat)
    (seed : List Nat) (calls : List (Env × List Nat))
    (hload : loadState store0 CONFIG_KEY = .ok ⟨m, 0, seed⟩)
    (hm : m < 2 ^ 16) (hs : seed.length < 2 ^ 64)
    (hN : countSucc m calls < 2 ^ 64) :
    ∃ store2, recordMany store0 calls = .ok store2 ∧
      loadState store2 CONFIG_KEY = .ok ⟨m, countSucc m calls, seed⟩ := by
  have h := recordMany_count_from m seed hm hs calls store0 0 hload (by omega)
  simpa using h

/-- Witness for C4: three Record calls against max_size 5 of which the
second is too long, ending with reminder_count 2. -/
theorem reminder_count_eq_successes_witness :
    loadState (Store.set [] CONFIG_KEY (State.serialize ⟨5, 0, [9]⟩)) CONFIG_KEY =
      .ok ⟨5, 0, [9]⟩ ∧
    countSucc 5 [(⟨1, 1, [7]⟩, [1, 2]), (⟨2, 1, [7]⟩, [1, 2, 3, 4, 5, 6]),
      (⟨3, 1, [8]⟩, [3])] = 2 ∧
    (∃ store2,
      recordMany (Store.set [] CONFIG_KEY (State.serialize ⟨5, 0, [9]⟩))
        [(⟨1, 1, [7]⟩, [1, 2]), (⟨2, 1, [7]⟩, [1, 2, 3, 4, 5, 6]),
         (⟨3, 1, [8]⟩, [3])] = .ok store2 ∧
      loadState store2 CONFIG_KEY =
        .ok ⟨5, countSucc 5 [(⟨1, 1, [7]⟩, [1, 2]), (⟨2, 1, [7]⟩, [1, 2, 3, 4, 5, 6]),
          (⟨3, 1, [8]⟩, [3])], [9]⟩) := by
  refine ⟨by decide, by decide, ?_⟩
  exact reminder_count_eq_successes _ 5 [9] _ (by decide) (by decide) (by decide)
    (by decide)

/-- C1: when a candidate identity has no stored viewing-key hash, the
router still checks the presented credential against the all-zero buffer of
length VIEWING_KEY_SIZE (the first conjunct: that buffer heads the check
trace), continues the loop with an unchanged outcome instead of
short-circuiting (second conjunct), an exhausted loop fails with
Unauthorized (third conjunct), and a stored-but-mismatching key produces
that same Unauthorized error (fourth conjunct). Timing itself is outside
the embedding. -/
theorem dummy_check_on_missing_key (store : Store) (tok : List Nat)
    (msg : QueryMsg) (addr : List Nat) (rest : List (List Nat))
    (h : read_viewing_key store addr = none) :
    (authLoop store tok msg (addr :: rest)).2 =
      List.replicate VIEWING_KEY_SIZE 0 :: (authLoop store tok msg rest).2 ∧
    (authLoop store tok msg (addr :: rest)).1 = (authLoop store tok msg rest).1 ∧
    (authLoop store tok msg []).1 = .error (.std .unauthorized) ∧
    (∀ (store2 : Store) (addr2 stored : List Nat),
      read_viewing_key store2 addr2 = some stored →
      check_viewing_key tok stored = false →
      (authLoop store2 tok msg [addr2]).1 = .error (.std .unauthorized)) := by
  refine ⟨by simp [authLoop, h], by simp [authLoop, h], by simp [authLoop], ?_⟩
  intro store2 addr2 stored h2 hc
  simp [authLoop, h2, hc]

/-- Witness for C1: a store holding only a viewing key for identity 7,
queried for identity 1 (absent) and with a wrong token for identity 7. -/
theorem dummy_check_on_missing_key_witness :
    read_viewing_key [(vkStoreKey [7], toHashed [5])] [1] = none ∧
    (authLoop [(vkStoreKey [7], toHashed [5])] [9] (.Read [1] [9]) [[1]]).2 =
      List.replicate VIEWING_KEY_SIZE 0 ::
        (authLoop [(vkStoreKey [7], toHashed [5])] [9] (.Read [1] [9]) []).2 ∧
    (authLoop [(vkStoreKey [7], toHashed [5])] [9] (.Read [1] [9]) [[1]]).1 =
      (authLoop [(vkStoreKey [7], toHashed [5])] [9] (.Read [1] [9]) []).1 ∧
    (authLoop [(vkStoreKey [7], toHashed [5])] [9] (.Read [1] [9]) []).1 =
      .error (.std .unauthorized) ∧
    (∀ (store2 : Store) (addr2 stored : List Nat),
      read_viewing_key store2 addr2 = some stored →
      check_viewing_key [9] stored = false →
      (authLoop store2 [9] (.Read [1] [9]) [addr2]).1 =
        .error (.std .unauthorized)) := by
  refine ⟨by decide, ?_⟩
  exact dummy_check_on_missing_key [(vkStoreKey [7], toHashed [5])] [9]
    (.Read [1] [9]) [1] [] (by decide)

theorem check_viewing_key_self (tok : List Nat) :
    check_viewing_key tok (toHashed tok) = true := by
  simp [check_viewing_key, toHashed]

theorem check_viewing_key_other (tok tok2 : List Nat) (h : tok2 ≠ tok) :
    check_viewing_key tok2 (toHashed tok) = false := by
  simp only [check_viewing_key, toHashed]
  rw [beq_eq_false_iff_ne]
  intro hc
  exact h (sha_256_inj tok2 tok hc)

/-- C2: after try_generate_viewing_key for the sender, a Read query
presenting exactly the returned token succeeds and returns the stored Reminder
of the sender (or the not-found status when none is stored), while a
query presenting any other token, or targeting any identity with no stored
viewing key, fails with Unauthorized. -/
theorem viewing_key_auth_correct (store0 : Store) (env : Env)
    (entropy : List Nat) (config : State) (tok : List Nat) (store1 : Store)
    (hload : loadState store0 CONFIG_KEY = .ok config)
    (htok : tok = ViewingKey.new env config.prng_seed entropy)
    (hst : store1 = write_viewing_key store0 env.sender tok) :
    try_generate_viewing_key store0 env entropy =
      .ok (store1, .GenerateViewingKey tok) ∧
    (∀ (bytes : List Nat) (r : Reminder),
      Store.get store1 env.sender = some bytes →
      deserializeReminder bytes = some r →
      query store1 (.Read env.sender tok) =
        .ok (.Read MSG_FOUND (fromUtf8Ok r.content) (some r.timestamp))) ∧
    (Store.get store1 env.sender = none →
      query store1 (.Read env.sender tok) = .ok (.Read MSG_NOT_FOUND none none)) ∧
    (∀ tok2 : List Nat, tok2 ≠ tok →
      query store1 (.Read env.sender tok2) = .error (.std .unauthorized)) ∧
    (∀ addr2 tok2 : List Nat, read_viewing_key store1 addr2 = none →
      query store1 (.Read addr2 tok2) = .error (.std .unauthorized)) := by
  have hrv : read_viewing_key store1 env.sender = some (toHashed tok) := by
    rw [hst]
    unfold read_viewing_key write_viewing_key
    exact Store.get_set_self store0 (vkStoreKey env.sender) (toHashed tok)
  refine ⟨?_, ?_, ?_, ?_, ?_⟩
  · simp [try_generate_viewing_key, hload, write_viewing_key, htok, hst]
  · intro bytes r hb hd
    simp [query, authenticated_queries, get_validation_params, authLoop, hrv,
      check_viewing_key_self, authSuccess, query_read, mayLoadReminder, hb, hd]
  · intro hb
    simp [query, authenticated_queries, get_validation_params, authLoop, hrv,
      check_viewing_key_self, authSuccess, query_read, mayLoadReminder, hb]
  · intro tok2 hne
    simp [query, authenticated_queries, get_validation_params, authLoop, hrv,
      check_viewing_key_other tok tok2 hne]
  · intro addr2 tok2 h2
    simp [query, authenticated_queries, get_validation_params, authLoop, h2]

/-- Witness for C2 at a concrete initialized store, sender 1 2 and
entropy 9, exercising the match, mismatch and never-registered cases. -/
theorem viewing_key_auth_correct_witness :
    loadState (Store.set [] CONFIG_KEY (State.serialize ⟨5, 0, [9]⟩)) CONFIG_KEY =
      .ok ⟨5, 0, [9]⟩ ∧
    try_generate_viewing_key (Store.set [] CONFIG_KEY (State.serialize ⟨5, 0, [9]⟩))
        ⟨77, 3, [1, 2]⟩ [9] =
      .ok (write_viewing_key (Store.set [] CONFIG_KEY (State.serialize ⟨5, 0, [9]⟩))
             [1, 2] (ViewingKey.new ⟨77, 3, [1, 2]⟩ [9] [9]),
           .GenerateViewingKey (ViewingKey.new ⟨77, 3, [1, 2]⟩ [9] [9])) ∧
    query (write_viewing_key (Store.set [] CONFIG_KEY (State.serialize ⟨5, 0, [9]⟩))
        [1, 2] (ViewingKey.new ⟨77, 3, [1, 2]⟩ [9] [9]))
      (.Read [1, 2] (ViewingKey.new ⟨77, 3, [1, 2]⟩ [9] [9])) =
      .ok (.Read MSG_NOT_FOUND none none) ∧
    query (write_viewing_key (Store.set [] CONFIG_KEY (State.serialize ⟨5, 0, [9]⟩))
        [1, 2] (ViewingKey.new ⟨77, 3, [1, 2]⟩ [9] [9]))
      (.Read [1, 2] [0]) = .error (.std .unauthorized) ∧
    query (write_viewing_key (Store.set [] CONFIG_KEY (State.serialize ⟨5, 0, [9]⟩))
        [1, 2] (ViewingKey.new ⟨77, 3, [1, 2]⟩ [9] [9]))
      (.Read [4] [0]) = .error (.std .unauthorized) := by
  have h := viewing_key_auth_correct
    (Store.set [] CONFIG_KEY (State.serialize ⟨5, 0, [9]⟩)) ⟨77, 3, [1, 2]⟩ [9]
    ⟨5, 0, [9]⟩ (ViewingKey.new ⟨77, 3, [1, 2]⟩ [9] [9])
    (write_viewing_key (Store.set [] CONFIG_KEY (State.serialize ⟨5, 0, [9]⟩))
      [1, 2] (ViewingKey.new ⟨77, 3, [1, 2]⟩ [9] [9]))
    (by decide) rfl rfl
  refine ⟨by decide, h.1, h.2.2.1 (by decide), h.2.2.2.1 [0] (by decide),
    h.2.2.2.2 [4] [0] (by decide)⟩

theorem valid_max_size_le (v : Int) (ms : Nat)
    (h : valid_max_size v = some ms) : ms ≤ 65535 := by
  unfold valid_max_size at h
  by_cases h1 : v < 1
  · rw [if_pos h1] at h
    exact absurd h (by simp)
  · rw [if_neg h1] at h
    by_cases h2 : v ≤ 65535
    · rw [if_pos h2] at h
      injection h with h3
      omega
    · rw [if_neg h2] at h
      exact absurd h (by simp)

/-- C6 counterexample: initializing with the seed bytes of the string abc
persists a Config whose prng_seed is the hash of the base64 encoding YWJj
of the seed, which differs from the hash applied to the seed bytes
themselves. -/
theorem prng_seed_not_hash_of_raw_seed :
    init [] ⟨10, [97, 98, 99]⟩ =
      .ok (Store.set [] CONFIG_KEY
        (State.serialize ⟨10, 0, sha_256 (base64Encode [97, 98, 99])⟩), ()) ∧
    loadState (Store.set [] CONFIG_KEY
        (State.serialize ⟨10, 0, sha_256 (base64Encode [97, 98, 99])⟩)) CONFIG_KEY =
      .ok ⟨10, 0, sha_256 (base64Encode [97, 98, 99])⟩ ∧
    base64Encode [97, 98, 99] = [89, 87, 74, 106] ∧
    sha_256 (base64Encode [97, 98, 99]) ≠ sha_256 [97, 98, 99] := by
  refine ⟨by decide, by decide, by decide, by decide⟩

/-- C6 amended: the persisted Config.prng_seed equals the hash applied once
to the base64 encoding of the caller-supplied seed (not to the seed bytes
themselves), and every later try_generate_viewing_key uses exactly that
stored value as the contract-wide seed. -/
theorem prng_seed_is_hash_of_base64_seed (store : Store) (msg : InitMsg)
    (store2 : Store) (u : Unit)
    (h : init store msg = .ok (store2, u))
    (hseed : msg.prng_seed.length ≤ 2 ^ 60) :
    ∃ config, loadState store2 CONFIG_KEY = .ok config ∧
      config.prng_seed = sha_256 (base64Encode msg.prng_seed) ∧
      ∀ (env : Env) (entropy : List Nat),
        try_generate_viewing_key store2 env entropy =
          .ok (write_viewing_key store2 env.sender
                 (ViewingKey.new env (sha_256 (base64Encode msg.prng_seed)) entropy),
               .GenerateViewingKey
                 (ViewingKey.new env (sha_256 (base64Encode msg.prng_seed)) entropy)) := by
  rcases hv : valid_max_size msg.max_size with _ | ms
  · rw [init, hv] at h
    exact absurd h (by simp)
  · rw [init, hv] at h
    simp only [Except.ok.injEq, Prod.mk.injEq] at h
    have hst : store2 = Store.set store CONFIG_KEY
        (State.serialize ⟨ms, 0, sha_256 (base64Encode msg.prng_seed)⟩) := h.1.symm
    have hms : ms < 2 ^ 16 := by
      have := valid_max_size_le msg.max_size ms hv
      omega
    have hload2 : loadState store2 CONFIG_KEY =
        .ok ⟨ms, 0, sha_256 (base64Encode msg.prng_seed)⟩ := by
      rw [hst]
      exact loadState_set_serialize store _ hms (by norm_num)
        (seed_hash_length_lt msg.prng_seed hseed)
    refine ⟨⟨ms, 0, sha_256 (base64Encode msg.prng_seed)⟩, hload2, rfl, ?_⟩
    intro env entropy
    simp [try_generate_viewing_key, hload2]

/-- Witness for the amended C6 at seed bytes 97 98 99 and max_size 10. -/
theorem prng_seed_is_hash_of_base64_seed_witness :
    init [] ⟨10, [97, 98, 99]⟩ =
      .ok (Store.set [] CONFIG_KEY
        (State.serialize ⟨10, 0, sha_256 (base64Encode [97, 98, 99])⟩), ()) ∧
    (∃ config,
      loadState (Store.set [] CONFIG_KEY
          (State.serialize ⟨10, 0, sha_256 (base64Encode [97, 98, 99])⟩))
        CONFIG_KEY = .ok config ∧
      config.prng_seed = sha_256 (base64Encode [97, 98, 99]) ∧
      ∀ (env : Env) (entropy : List Nat),
        try_generate_viewing_key (Store.set [] CONFIG_KEY
            (State.serialize ⟨10, 0, sha_256 (base64Encode [97, 98, 99])⟩))
          env entropy =
          .ok (write_viewing_key (Store.set [] CONFIG_KEY
                 (State.serialize ⟨10, 0, sha_256 (base64Encode [97, 98, 99])⟩))
                 env.sender
                 (ViewingKey.new env (sha_256 (base64Encode [97, 98, 99])) entropy),
               .GenerateViewingKey
                 (ViewingKey.new env (sha_256 (base64Encode [97, 98, 99])) entropy))) := by
  refine ⟨by decide, ?_⟩
  exact prng_seed_is_hash_of_base64_seed [] ⟨10, [97, 98, 99]⟩ _ () (by decide)
    (by decide)

theorem vkStoreKey_ne_of_length_eq (id1 id2 : List Nat)
    (h : id1.length = id2.length) : vkStoreKey id2 ≠ id1 := by
  intro he
  have hl := congrArg List.length he
  rw [vkStoreKey_length] at hl
  omega

theorem vkStoreKey_ne_config (id2 : List Nat) : vkStoreKey id2 ≠ CONFIG_KEY := by
  intro he
  have hl := congrArg List.length he
  rw [vkStoreKey_length] at hl
  simp only [CONFIG_KEY, List.length_cons, List.length_nil] at hl
  omega

/-- C8: storage-layout discipline. Writing a viewing key touches neither
any Reminder slot of an equal-length identity nor the Config slot; writing
a Reminder or the Config never touches a viewing-key slot; the viewing-key
namespace key of an identity never equals the raw Reminder key
of an equal-length identity nor the fixed Config key; and each operation writes only its
designated keys: init only at CONFIG_KEY, try_record only at the raw
sender identity bytes and CONFIG_KEY, try_generate_viewing_key only at the
viewing-key namespace key of the sender. -/
theorem storage_namespaces_disjoint (id1 id2 : List Nat)
    (h : id1.length = id2.length) :
    vkStoreKey id2 ≠ id1 ∧
    vkStoreKey id2 ≠ CONFIG_KEY ∧
    (∀ (store : Store) (tok : List Nat),
      Store.get (write_viewing_key store id2 tok) id1 = Store.get store id1) ∧
    (∀ (store : Store) (tok : List Nat),
      Store.get (write_viewing_key store id2 tok) CONFIG_KEY =
        Store.get store CONFIG_KEY) ∧
    (∀ (store : Store) (v : List Nat),
      read_viewing_key (Store.set store id1 v) id2 = read_viewing_key store id2) ∧
    (∀ (store : Store) (v : List Nat),
      read_viewing_key (Store.set store CONFIG_KEY v) id2 =
        read_viewing_key store id2) ∧
    (∀ (store store2 : Store) (msg : InitMsg) (u : Unit),
      init store msg = .ok (store2, u) →
      ∀ k2 : List Nat, k2 ≠ CONFIG_KEY → Store.get store2 k2 = Store.get store k2) ∧
    (∀ (store store2 : Store) (env : Env) (p : List Nat) (a : HandleAnswer),
      try_record store env p = .ok (store2, a) →
      ∀ k2 : List Nat, k2 ≠ CONFIG_KEY → k2 ≠ env.sender →
        Store.get store2 k2 = Store.get store k2) ∧
    (∀ (store store2 : Store) (env : Env) (entropy : List Nat) (a : HandleAnswer),
      try_generate_viewing_key store env entropy = .ok (store2, a) →
      ∀ k2 : List Nat, k2 ≠ vkStoreKey env.sender →
        Store.get store2 k2 = Store.get store k2) := by
  refine ⟨vkStoreKey_ne_of_length_eq id1 id2 h, vkStoreKey_ne_config id2,
    ?_, ?_, ?_, ?_, ?_, ?_, ?_⟩
  · intro store tok
    exact Store.get_set_ne store _ id1 _ (vkStoreKey_ne_of_length_eq id1 id2 h)
  · intro store tok
    exact Store.get_set_ne store _ CONFIG_KEY _ (vkStoreKey_ne_config id2)
  · intro store v
    exact Store.get_set_ne store id1 _ v
      (fun he => vkStoreKey_ne_of_length_eq id1 id2 h he.symm)
  · intro store v
    exact Store.get_set_ne store CONFIG_KEY _ v
      (fun he => vkStoreKey_ne_config id2 he.symm)
  · intro store store2 msg u hinit k2 hk2
    rcases hv : valid_max_size msg.max_size with _ | ms
    · rw [init, hv] at hinit
      exact absurd hinit (by simp)
    · rw [init, hv] at hinit
      simp only [Except.ok.injEq, Prod.mk.injEq] at hinit
      rw [← hinit.1]
      exact Store.get_set_ne store CONFIG_KEY k2 _ (fun he => hk2 he.symm)
  · intro store store2 env p a hrec k2 hcfg hsend
    rcases hl : loadState store CONFIG_KEY with e | config
    · simp [try_record, hl] at hrec
    · simp only [try_record, hl] at hrec
      by_cases hp : config.max_size < p.length
      · rw [if_pos hp] at hrec
        simp only [Except.ok.injEq, Prod.mk.injEq] at hrec
        rw [← hrec.1]
      · rw [if_neg hp] at hrec
        simp only [Except.ok.injEq, Prod.mk.injEq] at hrec
        rw [← hrec.1]
        rw [Store.get_set_ne _ CONFIG_KEY k2 _ (fun he => hcfg he.symm)]
        rw [Store.get_set_ne _ env.sender k2 _ (fun he => hsend he.symm)]
  · intro store store2 env entropy a hgen k2 hk2
    rcases hl : loadState store CONFIG_KEY with e | config
    · rw [try_generate_viewing_key, hl] at hgen
      exact absurd hgen (by simp)
    · rw [try_generate_viewing_key, hl] at hgen
      simp only [Except.ok.injEq, Prod.mk.injEq] at hgen
      rw [← hgen.1]
      exact Store.get_set_ne store _ k2 _ (fun he => hk2 he.symm)

/-- Witness for C8 at the equal-length identities 1 2 and 3 4. -/
theorem storage_namespaces_disjoint_witness :
    ([1, 2] : List Nat).length = ([3, 4] : List Nat).length ∧
    vkStoreKey [3, 4] ≠ [1, 2] ∧ vkStoreKey [3, 4] ≠ CONFIG_KEY := by
  have h := storage_namespaces_disjoint [1, 2] [3, 4] (by decide)
  exact ⟨by decide, h.1, h.2.1⟩
